import Mathlib

/-!
Shallow embedding of the database introspection and query service of
`src/providers/databaseProvider.ts` (class `DatabaseProvider`), together with
theorems that check the specification claims against it.

The sqlite3 engine is modelled as an oracle (`Engine`): each method of the
class is translated from the source with the asynchronous engine callbacks
replaced by the oracle's responses, and the `connections` map (the per-path
connection registry) threaded as explicit state.  Engine handles are natural
numbers standing for `sqlite3.Database` objects.
-/

namespace DatabaseProvider

/-- A cell value as the sqlite3 driver delivers it to JavaScript.  `undef`
models the JavaScript `undefined` obtained by reading an absent property;
`real` carries an exact rational standing for a JavaScript number. -/
inductive Value where
  | null
  | int (i : Int)
  | real (q : Rat)
  | text (s : String)
  | undef
deriving DecidableEq, Repr

/-- A result row as delivered by `db.all`: a JavaScript object, i.e. a list of
property-name/value pairs.  JavaScript object keys are unique; that fact is
not forced by the type and enters the theorems as a hypothesis. -/
abbrev Row := List (String × Value)

/-- JavaScript property read `row[col]`: the bound value, or `undefined` when
the property is absent. -/
def rowGet (row : Row) (col : String) : Value :=
  (row.lookup col).getD Value.undef

/-- What one `db.all(query, ..., callback)` call hands to its callback: an
error or a row list, plus the statement object's `changes` counter (absent
when the driver leaves it undefined). -/
structure EngineResp where
  err : Option String
  rows : List Row
  changes : Option Nat
deriving DecidableEq, Repr

/-- One raw entry of the `sqlite_master` catalog, as far as the catalog query
of `getTables` projects it: object name and kind (`"table"`, `"view"`, ...). -/
structure CatalogEntry where
  name : String
  type : String
deriving DecidableEq, Repr

/-- The engine oracle: responses of the underlying sqlite3 library.
`openHandle` models the `new sqlite3.Database` callback (error message or a
fresh handle), `exec` the `db.all` callback for a given handle and SQL text,
`closeResult` the `db.close` callback, and `catalog` the raw contents of
`sqlite_master` visible through a handle (an error models a failing catalog
query). -/
structure Engine where
  openHandle : String → Except String Nat
  exec : Nat → String → EngineResp
  closeResult : Nat → Option String
  catalog : Nat → Except String (List CatalogEntry)

/-- The `connections: Map<string, sqlite3.Database>` field, as an association
list from database path to engine handle. -/
abbrev ConnMap := List (String × Nat)

/-- `interface QueryResult` of the source. -/
structure QueryResult where
  columns : List String
  values : List (List Value)
  rowCount : Nat
  error : Option String := none
deriving DecidableEq, Repr

/-- `interface TableInfo` of the source.  `rowCount` keeps the raw attached
cell value; JavaScript leaves the field `undefined` (here `none`) when it was
never assigned or assigned `undefined`. -/
structure TableInfo where
  name : String
  type : String
  rowCount : Option Value := none
deriving DecidableEq, Repr

/-- `openDatabase` (source lines 1152-1171): return the registered connection
for the path if present; otherwise ask the engine for a new handle, register
it and return it, or reject with the prefixed engine message. -/
def openDatabase (E : Engine) (st : ConnMap) (p : String) :
    Except String (Nat × ConnMap) :=
  match st.lookup p with
  | some db => .ok (db, st)
  | none =>
    match E.openHandle p with
    | .error msg => .error ("Failed to open database: " ++ msg)
    | .ok db => .ok (db, (p, db) :: st)

/-- `Map.delete` on the registry: drop the binding of path `p`. -/
def removeConn (st : ConnMap) (p : String) : ConnMap :=
  st.filter fun e => !(e.1 == p)

/-- `closeDatabase` (source lines 1173-1188): no-op when the path is not
registered; otherwise close the handle, and only on success delete the
registry entry — on a close error the promise rejects before the `delete`
line runs, so the entry stays.  Returns the outcome together with the
post-state of the registry. -/
def closeDatabase (E : Engine) (st : ConnMap) (p : String) :
    Except String Unit × ConnMap :=
  match st.lookup p with
  | none => (.ok (), st)
  | some db =>
    match E.closeResult db with
    | some msg => (.error ("Failed to close database: " ++ msg), st)
    | none => (.ok (), removeConn st p)

/-- The `db.all` callback body of `runQuery` (source lines 1252-1293): an
error becomes data in the `error` field; an empty row list yields empty
columns with `rowCount` taken from the statement's `changes` counter
(0 when undefined); otherwise the column names are the first row's keys and
each row is projected along them. -/
def runQueryCb (r : EngineResp) : QueryResult :=
  match r.err with
  | some m => { columns := [], values := [], rowCount := 0, error := some m }
  | none =>
    match r.rows with
    | [] => { columns := [], values := [], rowCount := r.changes.getD 0 }
    | row0 :: rest =>
      let columns := row0.map Prod.fst
      let values := (row0 :: rest).map fun row => columns.map fun col => rowGet row col
      { columns := columns, values := values, rowCount := (row0 :: rest).length }

/-- `runQuery` (source lines 1248-1295): open (or reuse) the connection for
the path — which can reject — then run the text and normalise the callback
data; the executor itself always resolves. -/
def runQuery (E : Engine) (st : ConnMap) (p q : String) :
    Except String (QueryResult × ConnMap) :=
  match openDatabase E st p with
  | .error e => .error e
  | .ok (db, st') => .ok (runQueryCb (E.exec db q), st')

/-- The query text synthesised by `getTableData` (source line 1298). -/
def tableDataQuery (tbl : String) (limit offset : Nat) : String :=
  "SELECT * FROM \"" ++ tbl ++ "\" LIMIT " ++ toString limit ++
    " OFFSET " ++ toString offset

/-- `getTableData` (source lines 1297-1300).  The TypeScript default
parameters `limit = 1000`, `offset = 0` are modelled by optional arguments
resolved at entry. -/
def getTableData (E : Engine) (st : ConnMap) (p tbl : String)
    (limit offset : Option Nat) : Except String (QueryResult × ConnMap) :=
  runQuery E st p (tableDataQuery tbl (limit.getD 1000) (offset.getD 0))

/-- The `ORDER BY CASE type WHEN 'table' THEN 1 WHEN 'view' THEN 2 ELSE 3 END`
rank of the catalog query of `getTables` (source lines 1194-1206). -/
def typeRank (t : String) : Nat :=
  if t = "table" then 1 else if t = "view" then 2 else 3

/-- SQLite evaluation of the predicate `name LIKE 'sqlite_%'` in the catalog
query: `LIKE` folds the case of ASCII letters, `_` matches exactly one
character and `%` any run, so a name matches when it has at least seven
characters and its first six, lower-cased, read `sqlite`.  (`Char.toLower`
only folds basic latin letters, exactly as SQLite's `LIKE` does.) -/
def likeSqliteReserved (s : String) : Bool :=
  decide (7 ≤ s.length) &&
    ((s.toList.take 6).map Char.toLower == "sqlite".toList)

/-- The `WHERE` clause of the catalog query: kind `table` or `view`, name not
`LIKE 'sqlite_%'`. -/
def keepEntry (e : CatalogEntry) : Bool :=
  (e.type == "table" || e.type == "view") && !(likeSqliteReserved e.name)

/-- The `ORDER BY` key ordering of the catalog query: rank of the kind first,
then the name under SQLite's default BINARY collation (string order). -/
def entryLe (a b : CatalogEntry) : Prop :=
  typeRank a.type < typeRank b.type ∨
    (typeRank a.type = typeRank b.type ∧ a.name ≤ b.name)

instance : DecidableRel entryLe := fun _ _ =>
  inferInstanceAs (Decidable (_ ∨ _))

instance : IsTotal CatalogEntry entryLe where
  total a b := by
    rcases Nat.lt_trichotomy (typeRank a.type) (typeRank b.type) with h | h | h
    · exact Or.inl (Or.inl h)
    · rcases le_total a.name b.name with hn | hn
      · exact Or.inl (Or.inr ⟨h, hn⟩)
      · exact Or.inr (Or.inr ⟨h.symm, hn⟩)
    · exact Or.inr (Or.inl h)

instance : IsTrans CatalogEntry entryLe where
  trans a b c hab hbc := by
    rcases hab with h | ⟨he, hn⟩ <;> rcases hbc with h2 | ⟨he2, hn2⟩
    · exact Or.inl (lt_trans h h2)
    · exact Or.inl (he2 ▸ h)
    · exact Or.inl (he ▸ h2)
    · exact Or.inr ⟨he.trans he2, le_trans hn hn2⟩

/-- Engine evaluation of the fixed catalog query of `getTables` (source lines
1194-1206) on the raw catalog: filter by the `WHERE` clause, sort by the
`ORDER BY` key. -/
def catalogQueryEval (raw : List CatalogEntry) : List CatalogEntry :=
  List.insertionSort entryLe (raw.filter keepEntry)

/-- The count query text of source line 1217. -/
def countQuery (name : String) : String :=
  "SELECT COUNT(*) as count FROM \"" ++ name ++ "\""

/-- The assignment `table.rowCount = countResult.values[0][0]` guarded by
`countResult.values.length > 0` (source lines 1218-1220): no first row, or an
empty first row (index 0 then reads `undefined`), leaves the field unset. -/
def attachRowCount (cr : QueryResult) : Option Value :=
  match cr.values with
  | [] => none
  | row0 :: _ =>
    match row0 with
    | [] => none
    | v :: _ => some v

/-- The per-entry body of the enrichment loop of `getTables` (source lines
1215-1224): only `table`-kind entries are counted, through `runQuery` on the
already-registered path; the `try/catch` turns a rejection into an unset
field, and a `runQuery` error result carries no values, so it too leaves the
field unset. -/
def enrichEntry (E : Engine) (st : ConnMap) (p : String)
    (e : CatalogEntry) : TableInfo :=
  if e.type = "table" then
    match runQuery E st p (countQuery e.name) with
    | .error _ => { name := e.name, type := e.type, rowCount := none }
    | .ok (cr, _) => { name := e.name, type := e.type, rowCount := attachRowCount cr }
  else { name := e.name, type := e.type, rowCount := none }

/-- `getTables` (source lines 1190-1229): open (or reuse) the connection, run
the catalog query — whose evaluation by the engine is `catalogQueryEval` of
the raw catalog — reject with the prefixed message if it fails, and enrich
each listed entry with a row count. -/
def getTables (E : Engine) (st : ConnMap) (p : String) :
    Except String (List TableInfo × ConnMap) :=
  match openDatabase E st p with
  | .error e => .error e
  | .ok (db, st') =>
    match E.catalog db with
    | .error m => .error ("Failed to get tables: " ++ m)
    | .ok raw => .ok ((catalogQueryEval raw).map (enrichEntry E st' p), st')

/-- `formatFileSize` helper: the hundredths integer displayed by
`(n / d).toFixed(2)`, that is `100 * n / d` rounded to the nearest integer,
ties upward.  For the divisors used here (powers of two) and `n` below 2^53
the JavaScript double holds `n / d` exactly, and ECMA-262 `toFixed` picks the
nearest hundredth, the larger on ties — exactly this value. -/
def round2 (n d : Nat) : Nat :=
  (200 * n + d) / (2 * d)

/-- Decimal rendering `toFixed(2)` of a hundredths integer: integral part,
dot, zero-padded two-digit fractional part. -/
def twoDecimals (h : Nat) : String :=
  toString (h / 100) ++ "." ++ (if h % 100 < 10 then "0" else "") ++
    toString (h % 100)

/-- `formatFileSize` (source lines 1416-1426). -/
def formatFileSize (bytes : Nat) : String :=
  if bytes < 1024 then toString bytes ++ " B"
  else if bytes < 1024 * 1024 then twoDecimals (round2 bytes 1024) ++ " KB"
  else if bytes < 1024 * 1024 * 1024 then
    twoDecimals (round2 bytes (1024 * 1024)) ++ " MB"
  else twoDecimals (round2 bytes (1024 * 1024 * 1024)) ++ " GB"

/-- Specification-side pagination (spec section 4.3): built from `run` with
the synthesised text `SELECT * FROM <table> LIMIT <limit> OFFSET <offset>`,
the table identifier double-quoted as everywhere in this service; `limit`
defaults to 1000 and `offset` to 0 when omitted. -/
def paginateSpec (E : Engine) (st : ConnMap) (p tbl : String)
    (limit offset : Option Nat) : Except String (QueryResult × ConnMap) :=
  match limit, offset with
  | some l, some o =>
    runQuery E st p ("SELECT * FROM \"" ++ tbl ++ "\" LIMIT " ++ Nat.repr l ++
      " OFFSET " ++ Nat.repr o)
  | some l, none =>
    runQuery E st p ("SELECT * FROM \"" ++ tbl ++ "\" LIMIT " ++ Nat.repr l ++
      " OFFSET " ++ Nat.repr 0)
  | none, some o =>
    runQuery E st p ("SELECT * FROM \"" ++ tbl ++ "\" LIMIT " ++ Nat.repr 1000 ++
      " OFFSET " ++ Nat.repr o)
  | none, none =>
    runQuery E st p ("SELECT * FROM \"" ++ tbl ++ "\" LIMIT " ++ Nat.repr 1000 ++
      " OFFSET " ++ Nat.repr 0)

/-- The `ORDER BY` key ordering carried over to listed entries. -/
def tiLe (a b : TableInfo) : Prop :=
  typeRank a.type < typeRank b.type ∨
    (typeRank a.type = typeRank b.type ∧ a.name ≤ b.name)

/-! Helper lemmas shared by the claim theorems. -/

theorem lookup_removeConn (st : ConnMap) (p : String) :
    (removeConn st p).lookup p = none := by
  induction st with
  | nil => rfl
  | cons a t ih =>
    obtain ⟨k, v⟩ := a
    unfold removeConn at ih ⊢
    rw [List.filter_cons]
    by_cases h : k = p
    · simp only [h, beq_self_eq_true, Bool.not_true, Bool.false_eq_true, if_false]
      exact ih
    · have hkp : (k == p) = false := beq_eq_false_iff_ne.mpr h
      simp only [hkp, Bool.not_false, if_true, List.lookup_cons]
      have hpk : (p == k) = false := beq_eq_false_iff_ne.mpr fun hh => h hh.symm
      simp only [List.lookup, hpk]
      exact ih

theorem openDatabase_after (E : Engine) (st : ConnMap) (p : String) (db : Nat)
    (st' : ConnMap) (h : openDatabase E st p = .ok (db, st')) :
    openDatabase E st' p = .ok (db, st') := by
  unfold openDatabase at h ⊢
  cases hl : st.lookup p with
  | some d =>
    rw [hl] at h
    simp only [Except.ok.injEq, Prod.mk.injEq] at h
    obtain ⟨rfl, rfl⟩ := h
    rw [hl]
  | none =>
    rw [hl] at h
    cases ho : E.openHandle p with
    | error m => rw [ho] at h; cases h
    | ok d =>
      rw [ho] at h
      simp only [Except.ok.injEq, Prod.mk.injEq] at h
      obtain ⟨rfl, rfl⟩ := h
      simp [List.lookup]

theorem runQuery_after_open (E : Engine) (st : ConnMap) (p : String) (db : Nat)
    (st' : ConnMap) (q : String)
    (h : openDatabase E st p = .ok (db, st')) :
    runQuery E st' p q = .ok (runQueryCb (E.exec db q), st') := by
  unfold runQuery
  rw [openDatabase_after E st p db st' h]

theorem runQueryCb_shape (r : EngineResp)
    (h : ∀ row ∈ r.rows, (row.map Prod.fst).Nodup) :
    (runQueryCb r).columns.Nodup ∧
      ∀ v ∈ (runQueryCb r).values, v.length = (runQueryCb r).columns.length := by
  obtain ⟨err, rows, changes⟩ := r
  cases err with
  | some m => exact ⟨List.nodup_nil, fun v hv => absurd hv (List.not_mem_nil v)⟩
  | none =>
    cases rows with
    | nil => exact ⟨List.nodup_nil, fun v hv => absurd hv (List.not_mem_nil v)⟩
    | cons row0 rest =>
      constructor
      · exact h row0 (List.mem_cons_self _ _)
      · intro v hv
        simp only [runQueryCb, List.mem_map] at hv
        obtain ⟨row, -, rfl⟩ := hv
        simp [runQueryCb]

theorem enrichEntry_nameType (E : Engine) (st : ConnMap) (p : String)
    (e : CatalogEntry) :
    (enrichEntry E st p e).name = e.name ∧ (enrichEntry E st p e).type = e.type := by
  unfold enrichEntry
  split
  · split <;> exact ⟨rfl, rfl⟩
  · exact ⟨rfl, rfl⟩

theorem entryLe_tiLe (E : Engine) (st : ConnMap) (p : String)
    {a b : CatalogEntry} (h : entryLe a b) :
    tiLe (enrichEntry E st p a) (enrichEntry E st p b) := by
  unfold tiLe
  rw [(enrichEntry_nameType E st p a).1, (enrichEntry_nameType E st p a).2,
    (enrichEntry_nameType E st p b).1, (enrichEntry_nameType E st p b).2]
  exact h

theorem enrichEntry_of_table (E : Engine) (st : ConnMap) (p : String)
    (e : CatalogEntry) (cr : QueryResult) (st2 : ConnMap)
    (htype : e.type = "table")
    (hrq : runQuery E st p (countQuery e.name) = .ok (cr, st2)) :
    enrichEntry E st p e =
      { name := e.name, type := e.type, rowCount := attachRowCount cr } := by
  unfold enrichEntry
  rw [if_pos htype, hrq]

theorem attachRowCount_err (r : EngineResp) (m : String) (h : r.err = some m) :
    attachRowCount (runQueryCb r) = none := by
  obtain ⟨err, rows, ch⟩ := r
  cases err with
  | none => cases h
  | some m2 => rfl

theorem attachRowCount_count (v : Value) (rest : Row) (more : List Row)
    (ch : Option Nat) :
    attachRowCount (runQueryCb
      { err := none, rows := (("count", v) :: rest) :: more, changes := ch }) =
      some v := by
  simp [runQueryCb, attachRowCount, rowGet, List.lookup]

/-! Concrete engines used by counterexamples and witnesses. -/

/-- An engine on which every statement reaches the `db.all` callback as
(no error, empty row list, `changes = 0`) — exactly how the sqlite3 driver
reports both a `SELECT` matching no rows and a mutation touching no rows:
`db.all` passes no column metadata with an empty row set. -/
def zeroRowEngine : Engine :=
  { openHandle := fun _ => .ok 1
    exec := fun _ _ => { err := none, rows := [], changes := some 0 }
    closeResult := fun _ => none
    catalog := fun _ => .ok [] }

/-- An engine whose every statement fails at SQL level. -/
def sqlErrorEngine : Engine :=
  { openHandle := fun _ => .ok 1
    exec := fun _ _ =>
      { err := some "SQLITE_ERROR: no such table: nonexistent", rows := []
        changes := none }
    closeResult := fun _ => none
    catalog := fun _ => .ok [] }

/-- An engine that opens handles and answers everything trivially. -/
def plainEngine : Engine :=
  { openHandle := fun _ => .ok 1
    exec := fun _ _ => { err := none, rows := [], changes := none }
    closeResult := fun _ => none
    catalog := fun _ => .ok [] }

/-- An engine that refuses to open any path. -/
def missingFileEngine : Engine :=
  { openHandle := fun _ => .error "SQLITE_CANTOPEN: unable to open database file"
    exec := fun _ _ => { err := none, rows := [], changes := none }
    closeResult := fun _ => none
    catalog := fun _ => .ok [] }

/-! Claim theorems. -/

/-- C1, counterexample: on an engine whose callback input is the one the
sqlite3 driver produces for a zero-row result set — no error, empty row list,
`changes = 0` — a `SELECT` matching no rows and a `DELETE` touching no rows
yield the very same `QueryResult`, and its `columns` field is empty rather
than "known and non-empty".  The claimed distinction is not implemented:
`db.all` gives `runQuery` no column names to surface when zero rows match. -/
theorem runQuery_empty_select_cex :
    runQuery zeroRowEngine [] "/d.db" "SELECT * FROM t WHERE x = 1" =
      runQuery zeroRowEngine [] "/d.db" "DELETE FROM t WHERE x = 1" ∧
    (runQueryCb (zeroRowEngine.exec 1 "SELECT * FROM t WHERE x = 1")).columns =
      [] :=
  ⟨rfl, rfl⟩

/-- C1 (amended): for every execution of `run` whose result set is empty and
error-free, the returned `QueryResult` has empty `columns` and empty `values`,
with `rowCount` taken from the engine's reported `changes` counter (0 when
unreported); a zero-row `SELECT` is therefore not distinguishable from a
mutation by the result alone. -/
theorem runQuery_empty_resultset (E : Engine) (st : ConnMap) (p q : String)
    (db : Nat) (st' : ConnMap) (ch : Option Nat)
    (hopen : openDatabase E st p = .ok (db, st'))
    (hexec : E.exec db q = { err := none, rows := [], changes := ch }) :
    runQuery E st p q =
      .ok ({ columns := [], values := [], rowCount := ch.getD 0 }, st') := by
  unfold runQuery
  rw [hopen]
  show Except.ok (runQueryCb (E.exec db q), st') = _
  rw [hexec]
  rfl

/-- C1 witness: the amended theorem applied to `zeroRowEngine`. -/
theorem runQuery_empty_resultset_witness :
    runQuery zeroRowEngine [] "/d.db" "SELECT 1 WHERE 0" =
      .ok ({ columns := [], values := [], rowCount := 0 }, [("/d.db", 1)]) :=
  runQuery_empty_resultset zeroRowEngine [] "/d.db" "SELECT 1 WHERE 0" 1
    [("/d.db", 1)] (some 0) rfl rfl

/-- C2: whenever the connection opens (fresh or reused) and the engine reports
a SQL-level execution error, `run` still resolves — never rejects — and
returns a `QueryResult` with empty `columns` and `values`, `rowCount = 0`, and
the engine's message in the error field. -/
theorem runQuery_sql_error_as_data (E : Engine) (st : ConnMap) (p q : String)
    (db : Nat) (st' : ConnMap) (m : String)
    (hopen : openDatabase E st p = .ok (db, st'))
    (herr : (E.exec db q).err = some m) :
    runQuery E st p q =
      .ok ({ columns := [], values := [], rowCount := 0, error := some m },
        st') := by
  unfold runQuery
  rw [hopen]
  show Except.ok (runQueryCb (E.exec db q), st') = _
  unfold runQueryCb
  rw [herr]

/-- C2 witness: a query against a missing table yields a populated error field
and empty rows, not a rejection. -/
theorem runQuery_sql_error_as_data_witness :
    runQuery sqlErrorEngine [] "/d.db" "SELECT * FROM nonexistent" =
      .ok ({ columns := [], values := [], rowCount := 0,
             error := some "SQLITE_ERROR: no such table: nonexistent" },
        [("/d.db", 1)]) :=
  runQuery_sql_error_as_data sqlErrorEngine [] "/d.db" "SELECT * FROM nonexistent"
    1 [("/d.db", 1)] "SQLITE_ERROR: no such table: nonexistent" rfl rfl

/-- C3: a second `open` on the same path returns exactly the connection handle
and registry state the first successful `open` produced — at most one handle
per path, and `open` is idempotent once a live connection exists. -/
theorem openDatabase_idempotent (E : Engine) (st : ConnMap) (p : String)
    (db : Nat) (st' : ConnMap)
    (h : openDatabase E st p = .ok (db, st')) :
    openDatabase E st' p = .ok (db, st') :=
  openDatabase_after E st p db st' h

/-- C3 witness: the theorem applied to a fresh open on `plainEngine`. -/
theorem openDatabase_idempotent_witness :
    openDatabase plainEngine [("/d.db", 1)] "/d.db" = .ok (1, [("/d.db", 1)]) :=
  openDatabase_idempotent plainEngine [] "/d.db" 1 [("/d.db", 1)] rfl

/-- C10: when no live connection exists for the path and the engine cannot
open it, `run` rejects with the prefixed connection error instead of returning
a `QueryResult` — the errors-as-data guarantee covers only SQL-level failures
on an open connection. -/
theorem runQuery_open_failure (E : Engine) (st : ConnMap) (p q m : String)
    (hl : st.lookup p = none) (ho : E.openHandle p = .error m) :
    runQuery E st p q = .error ("Failed to open database: " ++ m) := by
  unfold runQuery openDatabase
  rw [hl, ho]

/-- C10 witness: the theorem applied to an engine that cannot open the file. -/
theorem runQuery_open_failure_witness :
    runQuery missingFileEngine [] "/missing.db" "SELECT 1" =
      .error ("Failed to open database: " ++
        "SQLITE_CANTOPEN: unable to open database file") :=
  runQuery_open_failure missingFileEngine [] "/missing.db" "SELECT 1"
    "SQLITE_CANTOPEN: unable to open database file" rfl rfl

/-- An engine whose close callback reports an error. -/
def busyCloseEngine : Engine :=
  { openHandle := fun _ => .ok 1
    exec := fun _ _ => { err := none, rows := [], changes := none }
    closeResult := fun _ =>
      some "SQLITE_BUSY: unable to close due to unfinalized statements"
    catalog := fun _ => .ok [] }

/-- A second engine with a failing close, for the amended-claim witness. -/
def lockedCloseEngine : Engine :=
  { openHandle := fun _ => .ok 2
    exec := fun _ _ => { err := none, rows := [], changes := none }
    closeResult := fun _ => some "database is locked"
    catalog := fun _ => .ok [] }

/-- C4, counterexample: when the underlying engine close fails, the promise
rejects before the `connections.delete` line runs, so the registry entry is
NOT removed — after the failed close the path is still registered, against the
claim that the entry is removed regardless. -/
theorem closeDatabase_failure_cex :
    closeDatabase busyCloseEngine [("/d.db", 1)] "/d.db" =
      (.error ("Failed to close database: " ++
          "SQLITE_BUSY: unable to close due to unfinalized statements"),
        [("/d.db", 1)]) ∧
    ([("/d.db", 1)] : ConnMap).lookup "/d.db" = some 1 :=
  ⟨rfl, rfl⟩

/-- C4 (amended): `close` on an unregistered path is a no-op; on a registered
path it deregisters the entry only when the underlying engine close succeeds,
while a close failure is surfaced as an error with the entry left registered
(the registry state unchanged). -/
theorem closeDatabase_amended (E : Engine) (st : ConnMap) (p : String) :
    (st.lookup p = none → closeDatabase E st p = (.ok (), st)) ∧
    (∀ db, st.lookup p = some db →
      (∀ m, E.closeResult db = some m →
        closeDatabase E st p = (.error ("Failed to close database: " ++ m), st)) ∧
      (E.closeResult db = none →
        closeDatabase E st p = (.ok (), removeConn st p) ∧
        (removeConn st p).lookup p = none)) := by
  refine ⟨fun h => ?_,
    fun db hdb => ⟨fun m hm => ?_, fun hc => ⟨?_, lookup_removeConn st p⟩⟩⟩
  · unfold closeDatabase
    rw [h]
  · unfold closeDatabase
    rw [hdb]
    show (match E.closeResult db with
      | some msg =>
        ((Except.error ("Failed to close database: " ++ msg) : Except String Unit), st)
      | none => ((Except.ok () : Except String Unit), removeConn st p)) = _
    rw [hm]
  · unfold closeDatabase
    rw [hdb]
    show (match E.closeResult db with
      | some msg =>
        ((Except.error ("Failed to close database: " ++ msg) : Except String Unit), st)
      | none => ((Except.ok () : Except String Unit), removeConn st p)) = _
    rw [hc]

/-- C4 witness: the amended theorem applied to a registered path whose close
fails — error surfaced, entry retained. -/
theorem closeDatabase_amended_witness :
    closeDatabase lockedCloseEngine [("/w.db", 2)] "/w.db" =
      (.error ("Failed to close database: " ++ "database is locked"),
        [("/w.db", 2)]) :=
  ((closeDatabase_amended lockedCloseEngine [("/w.db", 2)] "/w.db").2 2 rfl).1
    "database is locked" rfl

/-- An engine returning one two-column row, rows with unique keys. -/
def twoColEngine : Engine :=
  { openHandle := fun _ => .ok 1
    exec := fun _ _ =>
      { err := none, rows := [[("a", Value.int 1), ("b", Value.null)]]
        changes := none }
    closeResult := fun _ => none
    catalog := fun _ => .ok [] }

/-- C7: every `QueryResult` that `run` resolves with satisfies the shape
invariant — `columns` is duplicate-free (JavaScript object keys, the source of
the column names, are unique, which is the hypothesis on the engine rows), and
every inner sequence of `values` has exactly `columns.length` entries. -/
theorem runQuery_result_shape (E : Engine) (st : ConnMap) (p q : String)
    (res : QueryResult) (st' : ConnMap)
    (hkeys : ∀ db text row, row ∈ (E.exec db text).rows →
      (row.map Prod.fst).Nodup)
    (h : runQuery E st p q = .ok (res, st')) :
    res.columns.Nodup ∧ ∀ v ∈ res.values, v.length = res.columns.length := by
  unfold runQuery at h
  cases ho : openDatabase E st p with
  | error e => rw [ho] at h; cases h
  | ok pr =>
    obtain ⟨db, st2⟩ := pr
    rw [ho] at h
    simp only [Except.ok.injEq, Prod.mk.injEq] at h
    obtain ⟨rfl, rfl⟩ := h
    exact runQueryCb_shape (E.exec db q) (hkeys db q)

/-- C7 witness: the theorem applied to a concrete one-row, two-column result. -/
theorem runQuery_result_shape_witness :
    (QueryResult.mk ["a", "b"] [[Value.int 1, Value.null]] 1 none).columns.Nodup :=
  (runQuery_result_shape twoColEngine [] "/d.db" "SELECT * FROM t"
    (QueryResult.mk ["a", "b"] [[Value.int 1, Value.null]] 1 none) [("/d.db", 1)]
    (fun db text row hr => by
      simp only [twoColEngine, List.mem_singleton] at hr
      subst hr
      decide)
    rfl).1

/-- C8, counterexample: for byte counts below 1024 the formatter renders the
raw integer with no fractional digits at all — `formatFileSize 512` is
"512 B", whose numeric part is not rendered at two-decimal precision (the
output contains no decimal point). -/
theorem formatFileSize_integer_bytes_cex :
    formatFileSize 512 = "512 B" ∧ '.' ∉ (formatFileSize 512).toList :=
  ⟨rfl, by decide⟩

/-- C8 (amended): the formatter picks its unit by binary 1024-based
thresholds; for the KB/MB/GB units the numeric part is rendered at two-decimal
precision — the displayed hundredths integer `round2 bytes d` is within half a
hundredth of the exact ratio, `|100 * bytes / d - round2 bytes d| ≤ 1/2`,
stated below multiplied through by `2 * d` — while byte counts under 1024 are
rendered as a plain integer with unit B. -/
theorem formatFileSize_amended (b : Nat) :
    (b < 1024 → formatFileSize b = toString b ++ " B") ∧
    (1024 ≤ b → b < 1048576 →
      formatFileSize b = twoDecimals (round2 b 1024) ++ " KB" ∧
      ((round2 b 1024 : Int) * 2048 - 200 * b).natAbs ≤ 1024) ∧
    (1048576 ≤ b → b < 1073741824 →
      formatFileSize b = twoDecimals (round2 b 1048576) ++ " MB" ∧
      ((round2 b 1048576 : Int) * 2097152 - 200 * b).natAbs ≤ 1048576) ∧
    (1073741824 ≤ b →
      formatFileSize b = twoDecimals (round2 b 1073741824) ++ " GB" ∧
      ((round2 b 1073741824 : Int) * 2147483648 - 200 * b).natAbs ≤
        1073741824) := by
  refine ⟨fun h1 => ?_, fun h1 h2 => ⟨?_, ?_⟩, fun h1 h2 => ⟨?_, ?_⟩,
    fun h1 => ⟨?_, ?_⟩⟩
  · unfold formatFileSize
    rw [if_pos h1]
  · unfold formatFileSize
    rw [if_neg (by omega), if_pos (by omega)]
  · unfold round2
    omega
  · unfold formatFileSize
    rw [if_neg (by omega), if_neg (by omega), if_pos (by omega)]
  · unfold round2
    omega
  · unfold formatFileSize
    rw [if_neg (by omega), if_neg (by omega), if_neg (by omega)]
  · unfold round2
    omega

/-- C8 witness: the KB branch of the amended theorem at 1536 bytes. -/
theorem formatFileSize_amended_witness :
    formatFileSize 1536 = twoDecimals (round2 1536 1024) ++ " KB" ∧
    ((round2 1536 1024 : Int) * 2048 - 200 * 1536).natAbs ≤ 1024 :=
  (formatFileSize_amended 1536).2.1 (by decide) (by decide)

/-- C9: `getTableData` returns exactly the result of `run` applied to the
synthesised pagination query, with `limit` defaulting to 1000 and `offset` to
0 when omitted — it agrees with the specification-side `paginateSpec` on every
engine, registry state, path, table and argument combination. -/
theorem getTableData_refines_paginate (E : Engine) (st : ConnMap)
    (p tbl : String) (limit offset : Option Nat) :
    getTableData E st p tbl limit offset = paginateSpec E st p tbl limit offset := by
  cases limit <;> cases offset <;> rfl

/-- An engine whose catalog holds one table named `sqliteXtbl`: the name does
not start with `sqlite_`, yet `NOT LIKE 'sqlite_%'` drops it because the `_`
of the pattern matches the character `X`. -/
def wildcardEngine : Engine :=
  { openHandle := fun _ => .ok 1
    exec := fun _ _ => { err := none, rows := [], changes := none }
    closeResult := fun _ => none
    catalog := fun _ => .ok [{ name := "sqliteXtbl", type := "table" }] }

/-- Raw catalog for the C5 witness: a view, a table, and an engine-reserved
name, deliberately out of order. -/
def rawListing : List CatalogEntry :=
  [{ name := "zebra", type := "view" }, { name := "alpha", type := "table" },
   { name := "sqlite_sequence", type := "table" }]

/-- Engine serving `rawListing` and a constant count of 2. -/
def listingEngine : Engine :=
  { openHandle := fun _ => .ok 1
    exec := fun _ _ =>
      { err := none, rows := [[("count", Value.int 2)]], changes := none }
    closeResult := fun _ => none
    catalog := fun _ => .ok rawListing }

/-- The listing `listingEngine` produces. -/
def tsListing : List TableInfo :=
  [{ name := "alpha", type := "table", rowCount := some (Value.int 2) },
   { name := "zebra", type := "view", rowCount := none }]

/-- C5, counterexample: the claim says `listTables` returns exactly the
table/view entries whose name does not start with `sqlite_`.  The catalog
entry `sqliteXtbl` does not start with `sqlite_` (its first seven characters
differ from `sqlite_`), yet the listing is empty: the implemented filter is
the SQL pattern `NOT LIKE 'sqlite_%'`, whose `_` is a one-character wildcard,
and it also folds ASCII case. -/
theorem getTables_reserved_cex :
    "sqliteXtbl".toList.take 7 ≠ "sqlite_".toList ∧
    getTables wildcardEngine [] "/d.db" = .ok ([], [("/d.db", 1)]) :=
  ⟨by decide, rfl⟩

/-- C5 (amended): `listTables` returns exactly the catalog entries of kind
table or view whose name does not match the SQL pattern `LIKE 'sqlite_%'`
(ASCII-case-insensitively, with `_` matching any single character) — as names
and kinds, a permutation of the filtered raw catalog — ordered with all
tables before all views and lexicographically by name within each kind; on an
empty catalog the listing is empty and no error is raised. -/
theorem getTables_listing (E : Engine) (st : ConnMap) (p : String) (db : Nat)
    (st' : ConnMap) (raw : List CatalogEntry) (ts : List TableInfo)
    (hopen : openDatabase E st p = .ok (db, st'))
    (hcat : E.catalog db = .ok raw)
    (hts : getTables E st p = .ok (ts, st')) :
    List.Perm (ts.map fun t => (t.name, t.type))
        ((raw.filter keepEntry).map fun e => (e.name, e.type)) ∧
    ts.Pairwise tiLe ∧
    (raw = [] → ts = []) := by
  have hred : getTables E st p =
      .ok ((catalogQueryEval raw).map (enrichEntry E st' p), st') := by
    unfold getTables
    rw [hopen]
    show (match E.catalog db with
      | Except.error m =>
        (Except.error ("Failed to get tables: " ++ m) :
          Except String (List TableInfo × ConnMap))
      | Except.ok raw =>
        Except.ok ((catalogQueryEval raw).map (enrichEntry E st' p), st')) = _
    rw [hcat]
  rw [hred] at hts
  simp only [Except.ok.injEq, Prod.mk.injEq] at hts
  obtain ⟨hts, -⟩ := hts
  subst hts
  refine ⟨?_, ?_, ?_⟩
  · rw [List.map_map]
    have hfun : ((fun t : TableInfo => (t.name, t.type)) ∘ enrichEntry E st' p)
        = fun e : CatalogEntry => (e.name, e.type) := by
      funext e
      have h := enrichEntry_nameType E st' p e
      simp [Function.comp, h.1, h.2]
    rw [hfun]
    exact (List.perm_insertionSort entryLe (raw.filter keepEntry)).map _
  · have hs : List.Pairwise entryLe (catalogQueryEval raw) :=
      List.sorted_insertionSort entryLe (raw.filter keepEntry)
    exact List.Pairwise.map _ (fun a b hab => entryLe_tiLe E st' p hab) hs
  · intro hraw
    subst hraw
    rfl

/-- C5 witness: the amended theorem applied to `listingEngine` — the produced
listing, as names and kinds, is a permutation of the filtered catalog. -/
theorem getTables_listing_witness :
    List.Perm (tsListing.map fun t => (t.name, t.type))
      ((rawListing.filter keepEntry).map fun e => (e.name, e.type)) :=
  (getTables_listing listingEngine [] "/d.db" 1 [("/d.db", 1)] rawListing
    tsListing rfl rfl rfl).1

/-- Raw catalog for the C6 theorem and witness: two tables, one of which fails
to count, and a view. -/
def rawIsolation : List CatalogEntry :=
  [{ name := "good", type := "table" }, { name := "bad", type := "table" },
   { name := "v", type := "view" }]

/-- Engine whose count query fails for table `bad` only. -/
def isolationEngine : Engine :=
  { openHandle := fun _ => .ok 1
    exec := fun _ q =>
      if q == countQuery "bad" then
        { err := some "SQLITE_IOERR: disk I/O error", rows := [], changes := none }
      else { err := none, rows := [[("count", Value.int 3)]], changes := none }
    closeResult := fun _ => none
    catalog := fun _ => .ok rawIsolation }

/-- The listing `isolationEngine` produces: `bad` keeps an unset row count,
every other entry is still returned. -/
def tsIsolation : List TableInfo :=
  [{ name := "bad", type := "table", rowCount := none },
   { name := "good", type := "table", rowCount := some (Value.int 3) },
   { name := "v", type := "view", rowCount := none }]

/-- C6: the listing's entries (names and kinds) are exactly the evaluated
catalog query's, independently of any count outcome — a per-table count
failure never aborts or empties the listing; for every table-kind entry the
count query's result is attached: a failing count (engine error) leaves
`rowCount` unset for that entry only, and a successful count whose first row
binds `count` to `v` attaches `v`. -/
theorem getTables_count_isolation (E : Engine) (st : ConnMap) (p : String)
    (db : Nat) (st' : ConnMap) (raw : List CatalogEntry) (ts : List TableInfo)
    (hopen : openDatabase E st p = .ok (db, st'))
    (hcat : E.catalog db = .ok raw)
    (hts : getTables E st p = .ok (ts, st')) :
    (ts.map fun t => (t.name, t.type)) =
      ((catalogQueryEval raw).map fun e => (e.name, e.type)) ∧
    ∀ t ∈ ts, t.type = "table" →
      ((E.exec db (countQuery t.name)).err.isSome → t.rowCount = none) ∧
      (∀ v rest more ch,
        E.exec db (countQuery t.name) =
          { err := none, rows := (("count", v) :: rest) :: more, changes := ch } →
        t.rowCount = some v) := by
  have hred : getTables E st p =
      .ok ((catalogQueryEval raw).map (enrichEntry E st' p), st') := by
    unfold getTables
    rw [hopen]
    show (match E.catalog db with
      | Except.error m =>
        (Except.error ("Failed to get tables: " ++ m) :
          Except String (List TableInfo × ConnMap))
      | Except.ok raw =>
        Except.ok ((catalogQueryEval raw).map (enrichEntry E st' p), st')) = _
    rw [hcat]
  rw [hred] at hts
  simp only [Except.ok.injEq, Prod.mk.injEq] at hts
  obtain ⟨hts, -⟩ := hts
  subst hts
  constructor
  · rw [List.map_map]
    congr 1
    funext e
    have h := enrichEntry_nameType E st' p e
    simp [Function.comp, h.1, h.2]
  · intro t ht htype
    simp only [List.mem_map] at ht
    obtain ⟨e, -, rfl⟩ := ht
    have hname := (enrichEntry_nameType E st' p e).1
    have hetype : e.type = "table" := by
      have h2 := (enrichEntry_nameType E st' p e).2
      rw [h2] at htype
      exact htype
    have hrq := runQuery_after_open E st p db st' (countQuery e.name) hopen
    rw [hname]
    rw [enrichEntry_of_table E st' p e _ _ hetype hrq]
    constructor
    · intro hsome
      obtain ⟨m, hm⟩ := Option.isSome_iff_exists.mp hsome
      exact attachRowCount_err (E.exec db (countQuery e.name)) m hm
    · intro v rest more ch hx
      show attachRowCount (runQueryCb (E.exec db (countQuery e.name))) = some v
      rw [hx]
      exact attachRowCount_count v rest more ch

/-- C6 witness: on `isolationEngine` the failing table `bad` is still listed
and its `rowCount` is unset. -/
theorem getTables_count_isolation_witness :
    (TableInfo.mk "bad" "table" none).rowCount = none :=
  ((getTables_count_isolation isolationEngine [] "/d.db" 1 [("/d.db", 1)]
      rawIsolation tsIsolation rfl rfl (by with_unfolding_all rfl)).2
    (TableInfo.mk "bad" "table" none) (by decide) rfl).1 (by decide)

end DatabaseProvider
